import Mathlib

/-!
Shallow embedding of the Real-Estate-AI mock backend's valuation and
deal-scoring logic (Express handlers in the mock API server) and of the
DealEvaluator page's client-side fallback calculation.  JavaScript numbers
are modelled as rationals; JS division by zero (which yields an infinity
or NaN in JS) is modelled explicitly by the `JSNum` type.
-/

namespace RealEstateAI

/-- JS `Math.round`: rounds to the nearest integer, halves toward +∞. -/
def jsRound (q : ℚ) : ℤ := ⌊q + 1/2⌋

/-- A JS `number` value as produced by the arithmetic in these handlers:
either an ordinary (rational) value, or one of the non-finite values that
JS division by zero produces. -/
inductive JSNum where
  | num (q : ℚ)
  | posInf
  | negInf
  | nan
deriving DecidableEq

/-- JS division `p / v`: finite quotient when `v ≠ 0`, otherwise
`Infinity`, `-Infinity` or `NaN` depending on the sign of `p`. -/
def jsDiv (p v : ℚ) : JSNum :=
  if v ≠ 0 then .num (p / v)
  else if 0 < p then .posInf
  else if p < 0 then .negInf
  else .nan

/-- JS comparison `x <= c` against a finite constant: `Infinity <= c` and
`NaN <= c` are false, `-Infinity <= c` is true. -/
def jsLe (x : JSNum) (c : ℚ) : Bool :=
  match x with
  | .num q => decide (q ≤ c)
  | .posInf => false
  | .negInf => true
  | .nan => false

/-- Models JS `Number.prototype.toFixed(1)` on a finite value: round to one
decimal place (halves up) and print with exactly one digit after the dot. -/
def toFixed1 (q : ℚ) : String :=
  let t : ℤ := ⌊q * 10 + 1/2⌋
  (if t < 0 then "-" else "") ++ toString (t.natAbs / 10) ++ "." ++ toString (t.natAbs % 10)

/-- Renders `(x * 100).toFixed(1)` as the handler's template strings do,
including the JS renderings of the non-finite values. -/
def pctOf (x : JSNum) : String :=
  match x with
  | .num q => toFixed1 (q * 100)
  | .posInf => "Infinity"
  | .negInf => "-Infinity"
  | .nan => "NaN"

/-- JS `1 - x` lifted to `JSNum`. -/
def oneMinus (x : JSNum) : JSNum :=
  match x with
  | .num q => .num (1 - q)
  | .posInf => .negInf
  | .negInf => .posInf
  | .nan => .nan

/-- JS `x - 1` lifted to `JSNum`. -/
def minusOne (x : JSNum) : JSNum :=
  match x with
  | .num q => .num (q - 1)
  | .posInf => .posInf
  | .negInf => .negInf
  | .nan => .nan

/-- The property types the price-estimator's `typeMultiplier` table knows. -/
inductive PropertyType where
  | House
  | Apartment
  | Land
deriving DecidableEq

/-- The `typeMultiplier` lookup table of the price-estimator handler:
House 1.2, Apartment 1.0, Land 0.8. -/
def typeMultiplier : PropertyType → ℚ
  | .House => 1.2
  | .Apartment => 1.0
  | .Land => 0.8

/-- The property type as the string it is interpolated as. -/
def propertyTypeName : PropertyType → String
  | .House => "House"
  | .Apartment => "Apartment"
  | .Land => "Land"

/-- Impact tag of a factor entry. -/
inductive Impact where
  | Positive
  | Negative
  | Neutral
deriving DecidableEq

/-- One entry of the `factors` array in the price-estimator response. -/
structure PriceFactor where
  factor : String
  impact : Impact
  description : String
deriving DecidableEq

/-- Request body of POST /api/price-estimator, after the JS string-to-number
coercions the handler applies (`parseInt`/`parseFloat`/arithmetic coercion). -/
structure PriceEstimateRequest where
  propertyType : PropertyType
  bedrooms : ℤ
  bathrooms : ℚ
  area : ℤ
  location : String

/-- Response body of POST /api/price-estimator. -/
structure PriceEstimateResult where
  estimatedPrice : ℤ
  confidence : ℤ
  factors : List PriceFactor
  message : String
deriving DecidableEq

/-- The single error kind of the spec's §7: an invalid input, carrying the
offending field and the violated constraint.  The mock handlers never
actually produce it; it is the error channel of the `Except` results. -/
inductive ApiError where
  | InvalidInput (field : String) (constraint : String)
deriving DecidableEq

/-- `estimatedPrice` of the price-estimator handler:
`Math.round((basePrice + bedrooms*25000 + bathrooms*15000 + area*100) * typeMultiplier[propertyType])`. -/
def estimatedPriceCalc (r : PriceEstimateRequest) : ℤ :=
  jsRound (((250000 : ℚ) + (r.bedrooms : ℚ) * 25000 + r.bathrooms * 15000
    + (r.area : ℚ) * 100) * typeMultiplier r.propertyType)

/-- `confidence` of the price-estimator handler:
`Math.round(Math.min(95, 70 + bedrooms*2 + bathrooms*3 + area/100))`
(the handler computes the min first, then rounds when building the response). -/
def confidenceCalc (r : PriceEstimateRequest) : ℤ :=
  jsRound (min (95 : ℚ) ((70 : ℚ) + (r.bedrooms : ℚ) * 2 + r.bathrooms * 3 + (r.area : ℚ) / 100))

/-- The `factors` array of the price-estimator handler, with its template
strings interpolated. -/
def factorsCalc (r : PriceEstimateRequest) : List PriceFactor :=
  [ { factor := "Property Type"
    , impact := .Positive
    , description := propertyTypeName r.propertyType
        ++ " properties have good market value in this area" }
  , { factor := "Location"
    , impact := .Positive
    , description := r.location ++ " is a desirable location with good amenities" }
  , { factor := "Size"
    , impact := .Positive
    , description := toString r.area ++ " sq.ft provides adequate living space for the market" }
  , { factor := "Bedrooms"
    , impact := if 3 ≤ r.bedrooms then .Positive else .Neutral
    , description := toString r.bedrooms ++ " bedrooms "
        ++ (if 3 ≤ r.bedrooms then "meet strong market demand" else "are adequate for the area") } ]

/-- The JSON object the price-estimator handler sends with `res.json`. -/
def priceEstimatorResult (r : PriceEstimateRequest) : PriceEstimateResult :=
  { estimatedPrice := estimatedPriceCalc r
  , confidence := confidenceCalc r
  , factors := factorsCalc r
  , message := "Price estimate generated successfully" }

/-- The complete behaviour of the price-estimator handler.  The handler has
no error branch: it unconditionally responds with the computed JSON, so the
result is always `Except.ok`. -/
def estimate (r : PriceEstimateRequest) : Except ApiError PriceEstimateResult :=
  .ok (priceEstimatorResult r)

/-- The deal recommendation values. -/
inductive DealScore where
  | Buy
  | Hold
  | Avoid
deriving DecidableEq

/-- Request body of POST /api/deal-evaluator, after JS numeric coercion. -/
structure DealEvaluationRequest where
  propertyPrice : ℚ
  estimatedMarketValue : ℚ
  location : String

/-- Response body of POST /api/deal-evaluator. -/
structure DealEvaluationResult where
  dealScore : DealScore
  confidenceLevel : ℤ
  aiExplanation : String
  message : String
deriving DecidableEq

/-- The if/else-if cascade of the deal-evaluator handler on the price
ratio, producing (dealScore, confidenceLevel, aiExplanation) with the
handler's template strings. -/
def dealBranch (pr : JSNum) : DealScore × ℤ × String :=
  if jsLe pr 0.85 then
    (.Buy, 90,
      "This is an excellent buying opportunity. The property is priced at "
      ++ pctOf pr
      ++ "% of its estimated market value, representing a "
      ++ pctOf (oneMinus pr)
      ++ "% discount. This suggests strong potential for appreciation and good value for your investment.")
  else if jsLe pr 0.95 then
    (.Buy, 80,
      "This is a good buying opportunity. The property is priced at "
      ++ pctOf pr
      ++ "% of its estimated market value, offering a reasonable discount. The location and market conditions support this investment decision.")
  else if jsLe pr 1.05 then
    (.Hold, 75,
      "This property is priced close to its estimated market value ("
      ++ pctOf pr
      ++ "%). While not a bargain, it may be worth considering if you\x27re looking for a stable investment in a good location. Monitor for price changes.")
  else if jsLe pr 1.15 then
    (.Hold, 70,
      "This property is priced above its estimated market value ("
      ++ pctOf pr
      ++ "%). Consider waiting for a price reduction or negotiating better terms. The premium may be justified by unique features or location benefits.")
  else
    (.Avoid, 85,
      "This property is significantly overpriced at "
      ++ pctOf pr
      ++ "% of its estimated market value. The "
      ++ pctOf (minusOne pr)
      ++ "% premium is too high for a sound investment. Consider other options or wait for price adjustments.")

/-- The JSON object the deal-evaluator handler sends with `res.json`. -/
def dealEvaluatorResult (r : DealEvaluationRequest) : DealEvaluationResult :=
  let t := dealBranch (jsDiv r.propertyPrice r.estimatedMarketValue)
  { dealScore := t.1
  , confidenceLevel := t.2.1
  , aiExplanation := t.2.2
  , message := "Deal evaluation completed successfully" }

/-- The complete behaviour of the deal-evaluator handler.  Like the
price-estimator handler it has no error branch: it always responds with the
computed JSON (also when `estimatedMarketValue` is 0, where the JS division
yields Infinity or NaN). -/
def evaluate (r : DealEvaluationRequest) : Except ApiError DealEvaluationResult :=
  .ok (dealEvaluatorResult r)

/-- What the DealEvaluator page's client-side fallback stores with
`setEvaluation` (no `message` field). -/
structure ClientEvaluation where
  dealScore : DealScore
  confidenceLevel : ℤ
  aiExplanation : String
deriving DecidableEq

/-- The if/else-if cascade of the DealEvaluator page's client-side fallback
calculation, with its template strings. -/
def clientDealBranch (pr : JSNum) : DealScore × ℤ × String :=
  if jsLe pr 0.85 then
    (.Buy, 90,
      "This is an excellent buying opportunity. The property is priced at "
      ++ pctOf pr
      ++ "% of its estimated market value, representing a "
      ++ pctOf (oneMinus pr)
      ++ "% discount. This suggests strong potential for appreciation and good value for your investment.")
  else if jsLe pr 0.95 then
    (.Buy, 80,
      "This is a good buying opportunity. The property is priced at "
      ++ pctOf pr
      ++ "% of its estimated market value, offering a reasonable discount. The location and market conditions support this investment decision.")
  else if jsLe pr 1.05 then
    (.Hold, 75,
      "This property is priced close to its estimated market value ("
      ++ pctOf pr
      ++ "%). While not a bargain, it may be worth considering if you\x27re looking for a stable investment in a good location. Monitor for price changes.")
  else if jsLe pr 1.15 then
    (.Hold, 70,
      "This property is priced above its estimated market value ("
      ++ pctOf pr
      ++ "%). Consider waiting for a price reduction or negotiating better terms. The premium may be justified by unique features or location benefits.")
  else
    (.Avoid, 85,
      "This property is significantly overpriced at "
      ++ pctOf pr
      ++ "% of its estimated market value. The "
      ++ pctOf (minusOne pr)
      ++ "% premium is too high for a sound investment. Consider other options or wait for price adjustments.")

/-- The client-side fallback evaluation of the DealEvaluator page, after
its `parseFloat` calls. -/
def clientFallbackEvaluation (propertyPrice marketValue : ℚ) : ClientEvaluation :=
  let t := clientDealBranch (jsDiv propertyPrice marketValue)
  { dealScore := t.1
  , confidenceLevel := t.2.1
  , aiExplanation := t.2.2 }

/-- A valid `PriceEstimateRequest` per the spec's data model: bedrooms in
0..10, bathrooms in 0..10, area in 100..50000 (propertyType is one of the
three enum values by type). -/
def ValidPriceRequest (r : PriceEstimateRequest) : Prop :=
  0 ≤ r.bedrooms ∧ r.bedrooms ≤ 10 ∧ 0 ≤ r.bathrooms ∧ r.bathrooms ≤ 10
    ∧ 100 ≤ r.area ∧ r.area ≤ 50000

lemma jsRound_mono {p q : ℚ} (h : p ≤ q) : jsRound p ≤ jsRound q :=
  Int.floor_le_floor (by linarith)

lemma jsRound_min (a b : ℚ) : jsRound (min a b) = min (jsRound a) (jsRound b) := by
  rcases le_total a b with h | h
  · rw [min_eq_left h, min_eq_left (jsRound_mono h)]
  · rw [min_eq_right h, min_eq_right (jsRound_mono h)]

lemma jsRound_intCast (n : ℤ) : jsRound (n : ℚ) = n := by
  rw [jsRound, Int.floor_int_add]
  norm_num

lemma jsDiv_of_ne {v : ℚ} (p : ℚ) (hv : v ≠ 0) : jsDiv p v = .num (p / v) := by
  rw [jsDiv, if_pos hv]

lemma jsDiv_pos_zero {p : ℚ} (hp : 0 < p) : jsDiv p 0 = .posInf := by
  rw [jsDiv, if_neg (by norm_num), if_pos hp]

lemma dealBranch_posInf :
    (dealBranch .posInf).1 = .Avoid ∧ (dealBranch .posInf).2.1 = 85 := by
  simp [dealBranch, jsLe]

lemma dealBranch_tier1 {q : ℚ} (h : q ≤ 0.85) :
    (dealBranch (.num q)).1 = .Buy ∧ (dealBranch (.num q)).2.1 = 90 := by
  simp [dealBranch, jsLe, h]

lemma dealBranch_tier2 {q : ℚ} (h1 : 0.85 < q) (h2 : q ≤ 0.95) :
    (dealBranch (.num q)).1 = .Buy ∧ (dealBranch (.num q)).2.1 = 80 := by
  simp [dealBranch, jsLe, not_le.mpr h1, h2]

lemma dealBranch_tier3 {q : ℚ} (h1 : 0.95 < q) (h2 : q ≤ 1.05) :
    (dealBranch (.num q)).1 = .Hold ∧ (dealBranch (.num q)).2.1 = 75 := by
  have h0 : ¬ q ≤ 0.85 := by intro h; exact absurd (h.trans (by norm_num)) (not_le.mpr h1)
  simp [dealBranch, jsLe, h0, not_le.mpr h1, h2]

lemma dealBranch_tier4 {q : ℚ} (h1 : 1.05 < q) (h2 : q ≤ 1.15) :
    (dealBranch (.num q)).1 = .Hold ∧ (dealBranch (.num q)).2.1 = 70 := by
  have h0 : ¬ q ≤ 0.85 := by intro h; exact absurd (h.trans (by norm_num)) (not_le.mpr h1)
  have h0' : ¬ q ≤ 0.95 := by intro h; exact absurd (h.trans (by norm_num)) (not_le.mpr h1)
  simp [dealBranch, jsLe, h0, h0', not_le.mpr h1, h2]

lemma dealBranch_tier5 {q : ℚ} (h1 : 1.15 < q) :
    (dealBranch (.num q)).1 = .Avoid ∧ (dealBranch (.num q)).2.1 = 85 := by
  have h0 : ¬ q ≤ 0.85 := by intro h; exact absurd (h.trans (by norm_num)) (not_le.mpr h1)
  have h0' : ¬ q ≤ 0.95 := by intro h; exact absurd (h.trans (by norm_num)) (not_le.mpr h1)
  have h0'' : ¬ q ≤ 1.05 := by intro h; exact absurd (h.trans (by norm_num)) (not_le.mpr h1)
  simp [dealBranch, jsLe, h0, h0', h0'', not_le.mpr h1]

lemma dealEvaluatorResult_num {p v : ℚ} (loc : String) (hv : v ≠ 0) :
    dealEvaluatorResult ⟨p, v, loc⟩
      = { dealScore := (dealBranch (.num (p / v))).1
        , confidenceLevel := (dealBranch (.num (p / v))).2.1
        , aiExplanation := (dealBranch (.num (p / v))).2.2
        , message := "Deal evaluation completed successfully" } := by
  rw [dealEvaluatorResult]
  rw [show (DealEvaluationRequest.mk p v loc).estimatedMarketValue = v from rfl]
  rw [show (DealEvaluationRequest.mk p v loc).propertyPrice = p from rfl]
  rw [jsDiv_of_ne p hv]

lemma dealEvaluatorResult_def (p v : ℚ) (loc : String) :
    dealEvaluatorResult ⟨p, v, loc⟩
      = { dealScore := (dealBranch (jsDiv p v)).1
        , confidenceLevel := (dealBranch (jsDiv p v)).2.1
        , aiExplanation := (dealBranch (jsDiv p v)).2.2
        , message := "Deal evaluation completed successfully" } := rfl

/-- C2: for positive inputs, the deal-evaluator's result is determined by the
first matching tier of the price ratio, in ascending order with ≤
comparisons (so exact boundary values fall into the cheaper tier): ratio ≤
0.85 gives (Buy, 90), ratio ≤ 0.95 gives (Buy, 80), ratio ≤ 1.05 gives
(Hold, 75), ratio ≤ 1.15 gives (Hold, 70), otherwise (Avoid, 85); and the
concrete request 350000 / 400000 (ratio 0.875) yields Buy with confidence
level 80. -/
theorem deal_tiers_ascending :
    (∀ (p v : ℚ) (loc : String), 0 < p → 0 < v →
      ((p / v ≤ 0.85 →
          (dealEvaluatorResult ⟨p, v, loc⟩).dealScore = .Buy ∧
          (dealEvaluatorResult ⟨p, v, loc⟩).confidenceLevel = 90) ∧
       (0.85 < p / v → p / v ≤ 0.95 →
          (dealEvaluatorResult ⟨p, v, loc⟩).dealScore = .Buy ∧
          (dealEvaluatorResult ⟨p, v, loc⟩).confidenceLevel = 80) ∧
       (0.95 < p / v → p / v ≤ 1.05 →
          (dealEvaluatorResult ⟨p, v, loc⟩).dealScore = .Hold ∧
          (dealEvaluatorResult ⟨p, v, loc⟩).confidenceLevel = 75) ∧
       (1.05 < p / v → p / v ≤ 1.15 →
          (dealEvaluatorResult ⟨p, v, loc⟩).dealScore = .Hold ∧
          (dealEvaluatorResult ⟨p, v, loc⟩).confidenceLevel = 70) ∧
       (1.15 < p / v →
          (dealEvaluatorResult ⟨p, v, loc⟩).dealScore = .Avoid ∧
          (dealEvaluatorResult ⟨p, v, loc⟩).confidenceLevel = 85))) ∧
    ((dealEvaluatorResult ⟨350000, 400000, "Austin, TX"⟩).dealScore = .Buy ∧
     (dealEvaluatorResult ⟨350000, 400000, "Austin, TX"⟩).confidenceLevel = 80) := by
  constructor
  · intro p v loc hp hv
    rw [dealEvaluatorResult_num loc hv.ne']
    exact ⟨fun h => dealBranch_tier1 h,
           fun h1 h2 => dealBranch_tier2 h1 h2,
           fun h1 h2 => dealBranch_tier3 h1 h2,
           fun h1 h2 => dealBranch_tier4 h1 h2,
           fun h1 => dealBranch_tier5 h1⟩
  · rw [dealEvaluatorResult_num _ (by norm_num : (400000 : ℚ) ≠ 0)]
    exact dealBranch_tier2 (by norm_num) (by norm_num)

/-- C2 witness: at propertyPrice 170 and estimatedMarketValue 200 the ratio
is exactly the boundary 0.85 and the evaluator yields (Buy, 90). -/
theorem deal_tiers_ascending_witness :
    0 < (170 : ℚ) ∧ 0 < (200 : ℚ) ∧
    ((dealEvaluatorResult ⟨170, 200, "Austin, TX"⟩).dealScore = .Buy ∧
     (dealEvaluatorResult ⟨170, 200, "Austin, TX"⟩).confidenceLevel = 90) :=
  ⟨by norm_num, by norm_num,
   (deal_tiers_ascending.1 170 200 "Austin, TX" (by norm_num) (by norm_num)).1
     (by norm_num)⟩

/-- C3 counterexample: at propertyPrice 100000 and estimatedMarketValue 0
the deal-evaluator does not fail: it responds with an ordinary success
result scoring Avoid with confidence level 85 (the JS ratio is Infinity,
which fails every ≤ tier test). -/
theorem deal_no_invalid_error_counter :
    evaluate ⟨100000, 0, "Austin, TX"⟩
      = .ok (dealEvaluatorResult ⟨100000, 0, "Austin, TX"⟩) ∧
    (dealEvaluatorResult ⟨100000, 0, "Austin, TX"⟩).dealScore = .Avoid ∧
    (dealEvaluatorResult ⟨100000, 0, "Austin, TX"⟩).confidenceLevel = 85 := by
  refine ⟨rfl, ?_⟩
  rw [dealEvaluatorResult_def, jsDiv_pos_zero (by norm_num)]
  exact dealBranch_posInf

/-- C3 amended: the deal-evaluator never fails; with positive propertyPrice
and estimatedMarketValue = 0 it returns Avoid with confidence level 85 (the
JS ratio is Infinity), and with negative estimatedMarketValue the ratio is
negative, so it returns Buy with confidence level 90. -/
theorem deal_zero_or_neg_market :
    ∀ (p v : ℚ) (loc : String), 0 < p →
      evaluate ⟨p, v, loc⟩ = .ok (dealEvaluatorResult ⟨p, v, loc⟩) ∧
      (v = 0 → (dealEvaluatorResult ⟨p, v, loc⟩).dealScore = .Avoid ∧
               (dealEvaluatorResult ⟨p, v, loc⟩).confidenceLevel = 85) ∧
      (v < 0 → (dealEvaluatorResult ⟨p, v, loc⟩).dealScore = .Buy ∧
               (dealEvaluatorResult ⟨p, v, loc⟩).confidenceLevel = 90) := by
  intro p v loc hp
  refine ⟨rfl, ?_, ?_⟩
  · rintro rfl
    rw [dealEvaluatorResult_def, jsDiv_pos_zero hp]
    exact dealBranch_posInf
  · intro hv
    rw [dealEvaluatorResult_num loc hv.ne]
    exact dealBranch_tier1
      ((div_neg_of_pos_of_neg hp hv).le.trans (by norm_num))

/-- C3 amended witness: the amended statement instantiated at
propertyPrice 100000 and estimatedMarketValue 0. -/
theorem deal_zero_or_neg_market_witness :
    0 < (100000 : ℚ) ∧
    (evaluate ⟨100000, 0, "Denver, CO"⟩
       = .ok (dealEvaluatorResult ⟨100000, 0, "Denver, CO"⟩) ∧
     ((0 : ℚ) = 0 → (dealEvaluatorResult ⟨100000, 0, "Denver, CO"⟩).dealScore = .Avoid ∧
               (dealEvaluatorResult ⟨100000, 0, "Denver, CO"⟩).confidenceLevel = 85) ∧
     ((0 : ℚ) < 0 → (dealEvaluatorResult ⟨100000, 0, "Denver, CO"⟩).dealScore = .Buy ∧
               (dealEvaluatorResult ⟨100000, 0, "Denver, CO"⟩).confidenceLevel = 90)) :=
  ⟨by norm_num, deal_zero_or_neg_market 100000 0 "Denver, CO" (by norm_num)⟩

/-- C1: for every valid request the price-estimator's estimatedPrice is
exactly round((250000 + bedrooms·25000 + bathrooms·15000 + area·100) · m)
with m = 1.2 for House, 1.0 for Apartment and 0.8 for Land; in particular a
House with 4 bedrooms, 3 bathrooms and area 2500 is estimated at 774000. -/
theorem estimatedPrice_closed_form :
    (∀ r : PriceEstimateRequest, ValidPriceRequest r →
      (priceEstimatorResult r).estimatedPrice
        = jsRound (((250000 : ℚ) + (r.bedrooms : ℚ) * 25000 + r.bathrooms * 15000
            + (r.area : ℚ) * 100)
            * (if r.propertyType = .House then 1.2
               else if r.propertyType = .Apartment then 1.0 else 0.8))) ∧
    (priceEstimatorResult ⟨.House, 4, 3, 2500, "San Francisco, CA"⟩).estimatedPrice
      = 774000 := by
  constructor
  · intro r _
    have hm : typeMultiplier r.propertyType
        = (if r.propertyType = .House then (1.2 : ℚ)
           else if r.propertyType = .Apartment then 1.0 else 0.8) := by
      cases r.propertyType <;> simp [typeMultiplier]
    show estimatedPriceCalc r = _
    rw [estimatedPriceCalc, hm]
  · show estimatedPriceCalc _ = 774000
    norm_num [estimatedPriceCalc, typeMultiplier, jsRound, Int.floor_eq_iff]

/-- C1 witness: the closed form instantiated at a valid Apartment request
with 2 bedrooms, 1 bathroom and area 1200. -/
theorem estimatedPrice_closed_form_witness :
    ValidPriceRequest ⟨.Apartment, 2, 1, 1200, "Miami, FL"⟩ ∧
    (priceEstimatorResult ⟨.Apartment, 2, 1, 1200, "Miami, FL"⟩).estimatedPrice
      = jsRound (((250000 : ℚ) + ((2 : ℤ) : ℚ) * 25000 + (1 : ℚ) * 15000
          + ((1200 : ℤ) : ℚ) * 100)
          * (if PropertyType.Apartment = .House then 1.2
             else if PropertyType.Apartment = .Apartment then 1.0 else 0.8)) := by
  have hv : ValidPriceRequest ⟨.Apartment, 2, 1, 1200, "Miami, FL"⟩ := by
    norm_num [ValidPriceRequest]
  exact ⟨hv, estimatedPrice_closed_form.1 _ hv⟩

/-- C4: for every valid request the price-estimator's confidence equals
min(95, round(70 + bedrooms·2 + bathrooms·3 + area/100)) and always lies in
the interval [70, 95]. -/
theorem confidence_formula :
    ∀ r : PriceEstimateRequest, ValidPriceRequest r →
      (priceEstimatorResult r).confidence
        = min 95 (jsRound ((70 : ℚ) + (r.bedrooms : ℚ) * 2 + r.bathrooms * 3
            + (r.area : ℚ) / 100)) ∧
      70 ≤ (priceEstimatorResult r).confidence ∧
      (priceEstimatorResult r).confidence ≤ 95 := by
  intro r hr
  obtain ⟨hb0, _, hba0, _, ha100, _⟩ := hr
  have h95 : jsRound (95 : ℚ) = 95 := by
    rw [show ((95 : ℚ)) = ((95 : ℤ) : ℚ) by norm_num, jsRound_intCast]
  have h71 : jsRound (71 : ℚ) = 71 := by
    rw [show ((71 : ℚ)) = ((71 : ℤ) : ℚ) by norm_num, jsRound_intCast]
  have hconf : (priceEstimatorResult r).confidence
      = jsRound (min (95 : ℚ) ((70 : ℚ) + (r.bedrooms : ℚ) * 2 + r.bathrooms * 3
          + (r.area : ℚ) / 100)) := rfl
  have hX71 : (71 : ℚ) ≤ (70 : ℚ) + (r.bedrooms : ℚ) * 2 + r.bathrooms * 3
      + (r.area : ℚ) / 100 := by
    have hb : (0 : ℚ) ≤ (r.bedrooms : ℚ) := by exact_mod_cast hb0
    have ha : (100 : ℚ) ≤ (r.area : ℚ) := by exact_mod_cast ha100
    have hdiv : (1 : ℚ) ≤ (r.area : ℚ) / 100 := by
      rw [le_div_iff₀ (by norm_num : (0 : ℚ) < 100)]
      linarith
    linarith
  refine ⟨?_, ?_, ?_⟩
  · rw [hconf, jsRound_min, h95]
  · rw [hconf]
    have hge := jsRound_mono (le_min (show (71 : ℚ) ≤ 95 by norm_num) hX71)
    rw [h71] at hge
    linarith
  · rw [hconf]
    have hle := jsRound_mono (min_le_left (95 : ℚ) ((70 : ℚ) + (r.bedrooms : ℚ) * 2
      + r.bathrooms * 3 + (r.area : ℚ) / 100))
    rw [h95] at hle
    linarith

/-- C4 witness: the confidence formula and bounds instantiated at a valid
House request with 3 bedrooms, 2 bathrooms and area 1500. -/
theorem confidence_formula_witness :
    ValidPriceRequest ⟨.House, 3, 2, 1500, "Seattle, WA"⟩ ∧
    ((priceEstimatorResult ⟨.House, 3, 2, 1500, "Seattle, WA"⟩).confidence
        = min 95 (jsRound ((70 : ℚ) + ((3 : ℤ) : ℚ) * 2 + (2 : ℚ) * 3
            + ((1500 : ℤ) : ℚ) / 100)) ∧
      70 ≤ (priceEstimatorResult ⟨.House, 3, 2, 1500, "Seattle, WA"⟩).confidence ∧
      (priceEstimatorResult ⟨.House, 3, 2, 1500, "Seattle, WA"⟩).confidence ≤ 95) := by
  have hv : ValidPriceRequest ⟨.House, 3, 2, 1500, "Seattle, WA"⟩ := by
    norm_num [ValidPriceRequest]
  exact ⟨hv, confidence_formula _ hv⟩

/-- C5: for every valid request the factors array has exactly four entries,
in the fixed order Property Type, Location, Size, Bedrooms; the first three
impacts are Positive and the Bedrooms impact is Positive exactly when
bedrooms ≥ 3, otherwise Neutral. -/
theorem factors_list_shape :
    ∀ r : PriceEstimateRequest, ValidPriceRequest r →
      (priceEstimatorResult r).factors.length = 4 ∧
      (priceEstimatorResult r).factors.map PriceFactor.factor
        = ["Property Type", "Location", "Size", "Bedrooms"] ∧
      (priceEstimatorResult r).factors.map PriceFactor.impact
        = [.Positive, .Positive, .Positive,
           if 3 ≤ r.bedrooms then .Positive else .Neutral] ∧
      (((priceEstimatorResult r).factors.map PriceFactor.impact)[3]?
         = some .Positive ↔ 3 ≤ r.bedrooms) := by
  intro r _
  refine ⟨rfl, rfl, ?_, ?_⟩
  · by_cases h : 3 ≤ r.bedrooms <;> simp [priceEstimatorResult, factorsCalc, h]
  · by_cases h : 3 ≤ r.bedrooms <;> simp [priceEstimatorResult, factorsCalc, h]

/-- C5 witness: the factors shape instantiated at a valid Apartment request
with 2 bedrooms (so the Bedrooms impact is Neutral). -/
theorem factors_list_shape_witness :
    ValidPriceRequest ⟨.Apartment, 2, 1, 500, "Portland, OR"⟩ ∧
    ((priceEstimatorResult ⟨.Apartment, 2, 1, 500, "Portland, OR"⟩).factors.length = 4 ∧
     (priceEstimatorResult ⟨.Apartment, 2, 1, 500, "Portland, OR"⟩).factors.map
         PriceFactor.factor
       = ["Property Type", "Location", "Size", "Bedrooms"] ∧
     (priceEstimatorResult ⟨.Apartment, 2, 1, 500, "Portland, OR"⟩).factors.map
         PriceFactor.impact
       = [.Positive, .Positive, .Positive,
          if 3 ≤ (2 : ℤ) then .Positive else .Neutral] ∧
     (((priceEstimatorResult ⟨.Apartment, 2, 1, 500, "Portland, OR"⟩).factors.map
         PriceFactor.impact)[3]?
        = some .Positive ↔ 3 ≤ (2 : ℤ))) := by
  have hv : ValidPriceRequest ⟨.Apartment, 2, 1, 500, "Portland, OR"⟩ := by
    norm_num [ValidPriceRequest]
  exact ⟨hv, factors_list_shape _ hv⟩

/-- C6 counterexample: with bedrooms = 11, outside the stated 0..10 range,
the price-estimator does not fail with an InvalidInput error: it responds
with an ordinary success result, whose price is computed by the same
formula (786000 for a House with 11 bedrooms, 2 bathrooms, area 1000). -/
theorem estimate_no_validation_counter :
    estimate ⟨.House, 11, 2, 1000, "Austin, TX"⟩
      = .ok (priceEstimatorResult ⟨.House, 11, 2, 1000, "Austin, TX"⟩) ∧
    ¬ ValidPriceRequest ⟨.House, 11, 2, 1000, "Austin, TX"⟩ ∧
    (priceEstimatorResult ⟨.House, 11, 2, 1000, "Austin, TX"⟩).estimatedPrice
      = 786000 ∧
    (priceEstimatorResult ⟨.House, 11, 2, 1000, "Austin, TX"⟩).message
      = "Price estimate generated successfully" := by
  refine ⟨rfl, by norm_num [ValidPriceRequest], ?_, rfl⟩
  show estimatedPriceCalc _ = 786000
  norm_num [estimatedPriceCalc, typeMultiplier, jsRound, Int.floor_eq_iff]

/-- C6 amended: the price-estimator handler performs no input validation
and is total on every request: it always responds with the formula-computed
success result and never produces an InvalidInput error. -/
theorem estimate_total_on_all :
    ∀ r : PriceEstimateRequest, estimate r = .ok (priceEstimatorResult r) :=
  fun _ => rfl

/-- C7: both handlers are deterministic: two calls with identical inputs
produce identical results in every field. -/
theorem handlers_deterministic :
    ∀ (r1 r2 : PriceEstimateRequest) (d1 d2 : DealEvaluationRequest),
      r1 = r2 → d1 = d2 →
      estimate r1 = estimate r2 ∧ evaluate d1 = evaluate d2 := by
  intro r1 r2 d1 d2 hr hd
  subst hr
  subst hd
  exact ⟨rfl, rfl⟩

/-- C7 witness: determinism instantiated at a concrete price request and a
concrete deal request. -/
theorem handlers_deterministic_witness :
    estimate ⟨.Land, 0, 0, 800, "Boise, ID"⟩ = estimate ⟨.Land, 0, 0, 800, "Boise, ID"⟩ ∧
    evaluate ⟨120000, 110000, "Boise, ID"⟩ = evaluate ⟨120000, 110000, "Boise, ID"⟩ :=
  handlers_deterministic ⟨.Land, 0, 0, 800, "Boise, ID"⟩ ⟨.Land, 0, 0, 800, "Boise, ID"⟩
    ⟨120000, 110000, "Boise, ID"⟩ ⟨120000, 110000, "Boise, ID"⟩ rfl rfl

/-- C8: the price ratio is the sole determinant of the deal-evaluator's
result: two requests with positive market values and equal ratios get the
same dealScore, the same confidenceLevel and the same explanation text,
regardless of absolute prices and locations. -/
theorem ratio_sole_determinant :
    ∀ (p1 v1 p2 v2 : ℚ) (l1 l2 : String), 0 < v1 → 0 < v2 →
      p1 / v1 = p2 / v2 →
      (dealEvaluatorResult ⟨p1, v1, l1⟩).dealScore
          = (dealEvaluatorResult ⟨p2, v2, l2⟩).dealScore ∧
      (dealEvaluatorResult ⟨p1, v1, l1⟩).confidenceLevel
          = (dealEvaluatorResult ⟨p2, v2, l2⟩).confidenceLevel ∧
      (dealEvaluatorResult ⟨p1, v1, l1⟩).aiExplanation
          = (dealEvaluatorResult ⟨p2, v2, l2⟩).aiExplanation := by
  intro p1 v1 p2 v2 l1 l2 h1 h2 hr
  rw [dealEvaluatorResult_num l1 h1.ne', dealEvaluatorResult_num l2 h2.ne', hr]
  exact ⟨rfl, rfl, rfl⟩

/-- C8 witness: 170/200 and 85/100 have the same ratio 0.85, so the two
requests get identical scores, confidence levels and explanations. -/
theorem ratio_sole_determinant_witness :
    0 < (200 : ℚ) ∧ 0 < (100 : ℚ) ∧ (170 : ℚ) / 200 = (85 : ℚ) / 100 ∧
    ((dealEvaluatorResult ⟨170, 200, "Austin, TX"⟩).dealScore
        = (dealEvaluatorResult ⟨85, 100, "Reno, NV"⟩).dealScore ∧
     (dealEvaluatorResult ⟨170, 200, "Austin, TX"⟩).confidenceLevel
        = (dealEvaluatorResult ⟨85, 100, "Reno, NV"⟩).confidenceLevel ∧
     (dealEvaluatorResult ⟨170, 200, "Austin, TX"⟩).aiExplanation
        = (dealEvaluatorResult ⟨85, 100, "Reno, NV"⟩).aiExplanation) :=
  ⟨by norm_num, by norm_num, by norm_num,
   ratio_sole_determinant 170 200 85 100 "Austin, TX" "Reno, NV"
     (by norm_num) (by norm_num) (by norm_num)⟩

/-- C9: the server-side deal-evaluator handler and the DealEvaluator page's
client-side fallback calculation agree on every pair of positive inputs:
same dealScore, same confidenceLevel, same explanation string. -/
theorem client_fallback_matches :
    ∀ (p v : ℚ) (loc : String), 0 < p → 0 < v →
      (clientFallbackEvaluation p v).dealScore
          = (dealEvaluatorResult ⟨p, v, loc⟩).dealScore ∧
      (clientFallbackEvaluation p v).confidenceLevel
          = (dealEvaluatorResult ⟨p, v, loc⟩).confidenceLevel ∧
      (clientFallbackEvaluation p v).aiExplanation
          = (dealEvaluatorResult ⟨p, v, loc⟩).aiExplanation := by
  intro p v loc _ _
  exact ⟨rfl, rfl, rfl⟩

/-- C9 witness: server and client fallback agree at propertyPrice 450000,
estimatedMarketValue 500000. -/
theorem client_fallback_matches_witness :
    0 < (450000 : ℚ) ∧ 0 < (500000 : ℚ) ∧
    ((clientFallbackEvaluation 450000 500000).dealScore
        = (dealEvaluatorResult ⟨450000, 500000, "Austin, TX"⟩).dealScore ∧
     (clientFallbackEvaluation 450000 500000).confidenceLevel
        = (dealEvaluatorResult ⟨450000, 500000, "Austin, TX"⟩).confidenceLevel ∧
     (clientFallbackEvaluation 450000 500000).aiExplanation
        = (dealEvaluatorResult ⟨450000, 500000, "Austin, TX"⟩).aiExplanation) :=
  ⟨by norm_num, by norm_num,
   client_fallback_matches 450000 500000 "Austin, TX" (by norm_num) (by norm_num)⟩

lemma typeMultiplier_pos (pt : PropertyType) : 0 < typeMultiplier pt := by
  cases pt <;> norm_num [typeMultiplier]

/-- C10: for a fixed property type and location, the estimated price is
monotonically nondecreasing in bedrooms, bathrooms and area over valid
requests. -/
theorem estimatedPrice_monotone :
    ∀ (pt : PropertyType) (loc : String) (b b' : ℤ) (ba ba' : ℚ) (a a' : ℤ),
      ValidPriceRequest ⟨pt, b, ba, a, loc⟩ →
      ValidPriceRequest ⟨pt, b', ba', a', loc⟩ →
      b ≤ b' → ba ≤ ba' → a ≤ a' →
      (priceEstimatorResult ⟨pt, b, ba, a, loc⟩).estimatedPrice
        ≤ (priceEstimatorResult ⟨pt, b', ba', a', loc⟩).estimatedPrice := by
  intro pt loc b b' ba ba' a a' _ _ hb hba ha
  show estimatedPriceCalc _ ≤ estimatedPriceCalc _
  rw [estimatedPriceCalc, estimatedPriceCalc]
  apply jsRound_mono
  have hbq : (b : ℚ) ≤ (b' : ℚ) := by exact_mod_cast hb
  have haq : (a : ℚ) ≤ (a' : ℚ) := by exact_mod_cast ha
  have hm := (typeMultiplier_pos pt).le
  apply mul_le_mul_of_nonneg_right _ hm
  linarith

/-- C10 witness: monotonicity instantiated between the valid requests
(House, 2 bd, 1 ba, 1000 sqft) and (House, 3 bd, 2 ba, 2000 sqft). -/
theorem estimatedPrice_monotone_witness :
    ValidPriceRequest ⟨.House, 2, 1, 1000, "Tulsa, OK"⟩ ∧
    ValidPriceRequest ⟨.House, 3, 2, 2000, "Tulsa, OK"⟩ ∧
    (2 : ℤ) ≤ 3 ∧ (1 : ℚ) ≤ 2 ∧ (1000 : ℤ) ≤ 2000 ∧
    (priceEstimatorResult ⟨.House, 2, 1, 1000, "Tulsa, OK"⟩).estimatedPrice
      ≤ (priceEstimatorResult ⟨.House, 3, 2, 2000, "Tulsa, OK"⟩).estimatedPrice := by
  have h1 : ValidPriceRequest ⟨.House, 2, 1, 1000, "Tulsa, OK"⟩ := by
    norm_num [ValidPriceRequest]
  have h2 : ValidPriceRequest ⟨.House, 3, 2, 2000, "Tulsa, OK"⟩ := by
    norm_num [ValidPriceRequest]
  exact ⟨h1, h2, by norm_num, by norm_num, by norm_num,
    estimatedPrice_monotone .House "Tulsa, OK" 2 3 1 2 1000 2000 h1 h2
      (by norm_num) (by norm_num) (by norm_num)⟩

end RealEstateAI
